import Mathlib

/-!
# Verification of the gollama Ollama client

Shallow embedding of the gollama Go client (package `gollama`): the data
model, request validation, wire marshaling (`encoding/json` with the
struct tags of the source), the non-2xx error mapping
(`parseErrorResponse`), and the two newline-delimited streaming read
loops (the progress loop of `Pull`/`Create`/`Push`, and the
terminal-flag loop of `GenerateStream`/`ChatStream`).

Machine integers of the source (`int64`, `int`) are embedded as `Int`;
`time.Time` is embedded as an `Int` (nanoseconds); Go `nil` pointers and
`nil` function values are embedded as `Option.none`.
-/

namespace Gollama

/-- A JSON value, as produced by Go `encoding/json`.  Objects keep their
fields in the order the encoder writes them (struct-field order). -/
inductive Json where
  | null
  | bool (b : Bool)
  | num (n : Int)
  | str (s : String)
  | arr (elems : List Json)
  | obj (fields : List (String × Json))
deriving Repr

/-- A Go `error` value as the client builds them: `leaf` is a plain
`fmt.Errorf` message, `wrap` is `fmt.Errorf("<context>: %w", cause)`,
and `ollama` is the structured `*OllamaError` with its status code and
message. -/
inductive GoError where
  | leaf (msg : String)
  | wrap (ctxMsg : String) (cause : GoError)
  | ollama (statusCode : Int) (message : String)
deriving Repr, DecidableEq

/-- `Error()` rendering: a wrap prints `"<context>: <cause>"`; an
`OllamaError` prints `"Ollama API error (status %d): %s"`. -/
def GoError.message : GoError → String
  | .leaf m => m
  | .wrap c e => c ++ ": " ++ e.message
  | .ollama st m => "Ollama API error (status " ++ toString st ++ "): " ++ m

/-- `errors.Unwrap`: only a `%w`-wrap exposes a cause. -/
def GoError.unwrap : GoError → Option GoError
  | .wrap _ e => some e
  | _ => none

/-- Whether the error is the structured `*OllamaError` (un-wrapped). -/
def GoError.isOllama : GoError → Bool
  | .ollama _ _ => true
  | _ => false

/-- Whether the error is a `%w`-wrap of another error. -/
def GoError.isWrapped : GoError → Bool
  | .wrap _ _ => true
  | _ => false

/-- Go `strings.TrimSpace`: the string with leading and trailing
whitespace removed. -/
def trimSpace (s : String) : String :=
  String.mk
    (((s.toList.dropWhile Char.isWhitespace).reverse.dropWhile
        Char.isWhitespace).reverse)

/-- ASCII lower-casing, modelling the case-insensitive field-name match
of Go `encoding/json`. -/
def asciiLower (s : String) : String :=
  String.mk
    (s.toList.map
      (fun c => if 'A' ≤ c ∧ c ≤ 'Z' then Char.ofNat (c.toNat + 32) else c))

/-- `ErrorResponse` — the generic error envelope `{"error": "..."}`. -/
structure ErrorResponse where
  Error : String
deriving Repr, DecidableEq

/-- `json.Unmarshal` of one JSON value into a Go `string` field: a JSON
string sets the field, JSON `null` leaves it unchanged, anything else is
a type error. -/
def setStringField (cur : String) : Json → Option String
  | .str s => some s
  | .null => some cur
  | _ => none

/-- Decoding an object's fields into `ErrorResponse` in stream order:
a key matching the `error` tag (Go matches tags case-insensitively)
must hold a string (or null); unknown keys are ignored; on a type error
the whole decode fails. -/
def applyErrorFields : List (String × Json) → ErrorResponse → Option ErrorResponse
  | [], acc => some acc
  | (k, v) :: rest, acc =>
    if asciiLower k = "error" then
      match setStringField acc.Error v with
      | some s => applyErrorFields rest ⟨s⟩
      | none => none
    else applyErrorFields rest acc

/-- `json.Unmarshal(body, &errorResp)` for `ErrorResponse`: succeeds on
an object (fields decoded in order) or `null` (zero value kept); every
other JSON value is a type error. -/
def unmarshalErrorResponse : Json → Option ErrorResponse
  | .null => some ⟨""⟩
  | .obj fields => applyErrorFields fields ⟨""⟩
  | _ => none

/-- A raw HTTP response body: the raw bytes as text, together with the
JSON value they parse to (`none` when the bytes are not valid JSON). -/
structure Body where
  raw : String
  json : Option Json

/-- `parseErrorResponse(statusCode, body)`: if the body unmarshals into
the `ErrorResponse` envelope its `Error` field becomes the message,
otherwise the raw body text does; the status code is carried either
way. -/
def parseErrorResponse (statusCode : Int) (body : Body) : GoError :=
  match body.json with
  | none => .ollama statusCode body.raw
  | some v =>
    match unmarshalErrorResponse v with
    | none => .ollama statusCode body.raw
    | some er => .ollama statusCode er.Error

/-- The status classification every executor performs:
`resp.StatusCode < 200 || resp.StatusCode >= 300` yields
`parseErrorResponse`, a 2xx status yields no error. -/
def checkStatus (statusCode : Int) (body : Body) : Option GoError :=
  if statusCode < 200 ∨ 300 ≤ statusCode then
    some (parseErrorResponse statusCode body)
  else
    none

/-! ## Data model (`types.go` of the source) -/

/-- `Message` — a chat message. -/
structure Message where
  Role : String
  Content : String
deriving Repr, DecidableEq

/-- `GenerateRequest` — `model`, `prompt`, `stream,omitempty`,
`options,omitempty`.  The `Options` map (`map[string]interface{}`) is a
field list; `[]` stands for Go's nil/empty map. -/
structure GenerateRequest where
  Model : String
  Prompt : String
  Stream : Bool
  Options : List (String × Json)
deriving Repr

/-- `GenerateResponse` — one decoded generation record; `Done` is the
terminal flag. -/
structure GenerateResponse where
  Model : String
  CreatedAt : Int
  Response : String
  Done : Bool
  Context : List Int
  TotalDuration : Int
  LoadDuration : Int
  PromptEvalCount : Int
  PromptEvalDuration : Int
  EvalCount : Int
  EvalDuration : Int
deriving Repr, DecidableEq

/-- `ChatRequest` — `model`, `messages`, `stream,omitempty`,
`options,omitempty`. -/
structure ChatRequest where
  Model : String
  Messages : List Message
  Stream : Bool
  Options : List (String × Json)
deriving Repr

/-- `ChatResponse` — one decoded chat record; `Done` is the terminal
flag. -/
structure ChatResponse where
  Model : String
  CreatedAt : Int
  Message : Message
  Done : Bool
  TotalDuration : Int
  LoadDuration : Int
  PromptEvalCount : Int
  PromptEvalDuration : Int
  EvalCount : Int
  EvalDuration : Int
deriving Repr, DecidableEq

/-- `EmbeddingRequest` — `model`, `prompt`. -/
structure EmbeddingRequest where
  Model : String
  Prompt : String
deriving Repr, DecidableEq

/-- `ShowRequest`. -/
structure ShowRequest where
  Model : String
deriving Repr, DecidableEq

/-- `CopyRequest`. -/
structure CopyRequest where
  Source : String
  Destination : String
deriving Repr, DecidableEq

/-- `DeleteRequest`. -/
structure DeleteRequest where
  Model : String
deriving Repr, DecidableEq

/-- `PullRequest`. -/
structure PullRequest where
  Model : String
deriving Repr, DecidableEq

/-- `CreateRequest` — the model name (tag `name`) and the Modelfile. -/
structure CreateRequest where
  Model : String
  Modelfile : String
deriving Repr, DecidableEq

/-- `PushRequest` — the model name (tag `name`). -/
structure PushRequest where
  Model : String
deriving Repr, DecidableEq

/-- `PullProgress` — one decoded progress record of `Pull`. -/
structure PullProgress where
  Status : String
  Digest : String
  Total : Int
  Completed : Int
deriving Repr, DecidableEq

/-- `CreateProgress` — one decoded progress record of `Create`. -/
structure CreateProgress where
  Status : String
deriving Repr, DecidableEq

/-- `PushProgress` — one decoded progress record of `Push`. -/
structure PushProgress where
  Status : String
  Digest : String
  Total : Int
  Completed : Int
deriving Repr, DecidableEq

/-! ## Wire marshaling (`encoding/json` with the source's struct tags) -/

/-- `json.Marshal` of a `Message`: both fields always present. -/
def marshalMessage (m : Message) : Json :=
  .obj [("role", .str m.Role), ("content", .str m.Content)]

/-- `json.Marshal` of a `GenerateRequest`.  `stream` carries the tag
`omitempty`, so a `false` value is omitted from the wire entirely;
`options` is likewise omitted when the map is nil/empty. -/
def marshalGenerateRequest (r : GenerateRequest) : List (String × Json) :=
  [("model", Json.str r.Model), ("prompt", Json.str r.Prompt)]
    ++ (if r.Stream then [("stream", Json.bool true)] else [])
    ++ (if r.Options.isEmpty then [] else [("options", Json.obj r.Options)])

/-- `json.Marshal` of a `ChatRequest`.  `messages` has no `omitempty`
and is always present; `stream` and `options` are omitted when empty. -/
def marshalChatRequest (r : ChatRequest) : List (String × Json) :=
  [("model", Json.str r.Model),
   ("messages", Json.arr (r.Messages.map marshalMessage))]
    ++ (if r.Stream then [("stream", Json.bool true)] else [])
    ++ (if r.Options.isEmpty then [] else [("options", Json.obj r.Options)])

/-! ## Public operation preludes: validation, clone, wire body

Each `…Call` definition embeds the head of the corresponding `Client`
method: the fail-fast validation in source order, then — before any
network access — the request value (for generate/chat: the clone
`reqCopy := *req` with the `Stream` flag forced) and its marshaled wire
body.  A `.error` result is returned before the wire request value is
ever constructed, which embeds "no network request is issued".

Go `nil` request pointers and `nil` callbacks are `none`; a callback is
otherwise opaque to the validation code, so it is embedded as
`Option Unit`.

For `Generate`/`GenerateStream`/`Chat`/`ChatStream` the `.ok` payload is
a pair: the first component is the value the caller's `*req` pointer
still refers to after the call (the source copies `*req` into `reqCopy`
and mutates only the copy, never writing through the caller's pointer),
the second is the marshaled wire body built from the clone. -/

/-- Head of `Client.Show`. -/
def showCall (modelName : String) : Except GoError ShowRequest :=
  if modelName = "" then .error (.leaf "model name cannot be empty")
  else .ok ⟨modelName⟩

/-- Head of `Client.Copy`. -/
def copyCall (source destination : String) : Except GoError CopyRequest :=
  if source = "" then .error (.leaf "source model name cannot be empty")
  else if destination = "" then
    .error (.leaf "destination model name cannot be empty")
  else .ok ⟨source, destination⟩

/-- Head of `Client.Delete`. -/
def deleteCall (modelName : String) : Except GoError DeleteRequest :=
  if modelName = "" then .error (.leaf "model name cannot be empty")
  else .ok ⟨modelName⟩

/-- Head of `Client.Pull`. -/
def pullCall (modelName : String) (fn : Option Unit) :
    Except GoError PullRequest :=
  if modelName = "" then .error (.leaf "model name cannot be empty")
  else
    match fn with
    | none => .error (.leaf "progress callback function cannot be nil")
    | some _ => .ok ⟨modelName⟩

/-- Head of `Client.Create`. -/
def createCall (modelName modelfileContent : String) (fn : Option Unit) :
    Except GoError CreateRequest :=
  if modelName = "" then .error (.leaf "model name cannot be empty")
  else if modelfileContent = "" then
    .error (.leaf "modelfile content cannot be empty")
  else
    match fn with
    | none => .error (.leaf "progress callback function cannot be nil")
    | some _ => .ok ⟨modelName, modelfileContent⟩

/-- Head of `Client.Push`. -/
def pushCall (modelName : String) (fn : Option Unit) :
    Except GoError PushRequest :=
  if modelName = "" then .error (.leaf "model name cannot be empty")
  else
    match fn with
    | none => .error (.leaf "progress callback function cannot be nil")
    | some _ => .ok ⟨modelName⟩

/-- Head of `Client.Generate`: validation, clone with `Stream` forced to
`false`, wire body of the clone. -/
def generateCall (req : Option GenerateRequest) :
    Except GoError (GenerateRequest × List (String × Json)) :=
  match req with
  | none => .error (.leaf "generate request cannot be nil")
  | some r =>
    if r.Model = "" then .error (.leaf "model name cannot be empty")
    else
      let reqCopy : GenerateRequest := { r with Stream := false }
      .ok (r, marshalGenerateRequest reqCopy)

/-- Head of `Client.GenerateStream`: validation, clone with `Stream`
forced to `true`, wire body of the clone. -/
def generateStreamCall (req : Option GenerateRequest) (fn : Option Unit) :
    Except GoError (GenerateRequest × List (String × Json)) :=
  match req with
  | none => .error (.leaf "generate request cannot be nil")
  | some r =>
    if r.Model = "" then .error (.leaf "model name cannot be empty")
    else
      match fn with
      | none => .error (.leaf "callback function cannot be nil")
      | some _ =>
        let reqCopy : GenerateRequest := { r with Stream := true }
        .ok (r, marshalGenerateRequest reqCopy)

/-- Head of `Client.Chat`: validation, clone with `Stream` forced to
`false`, wire body of the clone. -/
def chatCall (req : Option ChatRequest) :
    Except GoError (ChatRequest × List (String × Json)) :=
  match req with
  | none => .error (.leaf "chat request cannot be nil")
  | some r =>
    if r.Model = "" then .error (.leaf "model name cannot be empty")
    else if r.Messages.isEmpty then
      .error (.leaf "at least one message is required")
    else
      let reqCopy : ChatRequest := { r with Stream := false }
      .ok (r, marshalChatRequest reqCopy)

/-- Head of `Client.ChatStream`: validation, clone with `Stream` forced
to `true`, wire body of the clone. -/
def chatStreamCall (req : Option ChatRequest) (fn : Option Unit) :
    Except GoError (ChatRequest × List (String × Json)) :=
  match req with
  | none => .error (.leaf "chat request cannot be nil")
  | some r =>
    if r.Model = "" then .error (.leaf "model name cannot be empty")
    else if r.Messages.isEmpty then
      .error (.leaf "at least one message is required")
    else
      match fn with
      | none => .error (.leaf "callback function cannot be nil")
      | some _ =>
        let reqCopy : ChatRequest := { r with Stream := true }
        .ok (r, marshalChatRequest reqCopy)

/-- Head of `Client.Embeddings`. -/
def embeddingsCall (req : Option EmbeddingRequest) :
    Except GoError EmbeddingRequest :=
  match req with
  | none => .error (.leaf "embedding request cannot be nil")
  | some r =>
    if r.Model = "" then .error (.leaf "model name cannot be empty")
    else if r.Prompt = "" then .error (.leaf "prompt cannot be empty")
    else .ok r

/-! ## Remaining response types (needed by the unary result wrappers) -/

/-- `ModelDetails`. -/
structure ModelDetails where
  ParameterSize : String
  QuantizationLevel : String
  Family : String
  ParentModel : String
  Format : String
deriving Repr, DecidableEq

/-- `ModelResponse`. -/
structure ModelResponse where
  Name : String
  ModifiedAt : Int
  Size : Int
  Digest : String
  Details : ModelDetails
deriving Repr, DecidableEq

/-- `ListModelsResponse`. -/
structure ListModelsResponse where
  Models : List ModelResponse
deriving Repr, DecidableEq

/-- `EmbeddingResponse`. -/
structure EmbeddingResponse where
  Embedding : List Int
deriving Repr, DecidableEq

/-- `PSResponse`. -/
structure PSResponse where
  Models : List ModelResponse
deriving Repr, DecidableEq

/-! ## Unary result wrapping

Each unary method ends with
`if err != nil { return nil, fmt.Errorf("failed to …: %w", err) }`.
The `…Result` definitions embed exactly that mapping from the outcome of
the internal `do` round trip to the value the public method returns. -/

/-- Go `%q` on a plain string: the name wrapped in double quotes (the
source only ever formats model names with `%q`). -/
def goQuote (s : String) : String :=
  "\"" ++ s ++ "\""

/-- Tail of `Client.List`: wraps with "failed to list models". -/
def listResult (r : Except GoError ListModelsResponse) :
    Except GoError ListModelsResponse :=
  match r with
  | .error e => .error (.wrap "failed to list models" e)
  | .ok v => .ok v

/-- Tail of `Client.Show`: wraps with `failed to show model %q`. -/
def showResult (modelName : String) (r : Except GoError ModelResponse) :
    Except GoError ModelResponse :=
  match r with
  | .error e =>
    .error (.wrap ("failed to show model " ++ goQuote modelName) e)
  | .ok v => .ok v

/-- Tail of `Client.Copy`: wraps with
`failed to copy model from %q to %q`. -/
def copyResult (source destination : String) (r : Except GoError Unit) :
    Except GoError Unit :=
  match r with
  | .error e =>
    .error (.wrap ("failed to copy model from " ++ goQuote source
      ++ " to " ++ goQuote destination) e)
  | .ok v => .ok v

/-- Tail of `Client.Delete`: wraps with `failed to delete model %q`. -/
def deleteResult (modelName : String) (r : Except GoError Unit) :
    Except GoError Unit :=
  match r with
  | .error e =>
    .error (.wrap ("failed to delete model " ++ goQuote modelName) e)
  | .ok v => .ok v

/-- Tail of `Client.Generate`: wraps with "failed to generate text". -/
def generateResult (r : Except GoError GenerateResponse) :
    Except GoError GenerateResponse :=
  match r with
  | .error e => .error (.wrap "failed to generate text" e)
  | .ok v => .ok v

/-- Tail of `Client.Chat`: wraps with "failed to chat". -/
def chatResult (r : Except GoError ChatResponse) :
    Except GoError ChatResponse :=
  match r with
  | .error e => .error (.wrap "failed to chat" e)
  | .ok v => .ok v

/-- Tail of `Client.Embeddings`: wraps with
"failed to generate embeddings". -/
def embeddingsResult (r : Except GoError EmbeddingResponse) :
    Except GoError EmbeddingResponse :=
  match r with
  | .error e => .error (.wrap "failed to generate embeddings" e)
  | .ok v => .ok v

/-- Tail of `Client.PS`: wraps with "failed to get process status". -/
def psResult (r : Except GoError PSResponse) :
    Except GoError PSResponse :=
  match r with
  | .error e => .error (.wrap "failed to get process status" e)
  | .ok v => .ok v

/-! ## Streaming read loops

The response body is embedded as the list of lines `bufio.Scanner`
yields (split on newlines).  `json.Unmarshal` of one line into the
operation's record type is the opaque `decode` parameter — the loops
treat the unmarshal step as a black box, exactly as the source does.
The value of a loop is the *trace* of callback invocations, in
invocation order: everything the callback ever receives during the
call, so "no invocation after return" and "one invocation in flight at
a time" are built into the trace semantics of the sequential loop. -/

/-- Outcome of a streaming read loop: `ok` is the `return nil` path,
`cancelled` is the `return ctx.Err()` path (a cancellation-typed error,
distinct from every other failure). -/
inductive StreamResult where
  | ok
  | cancelled
deriving Repr, DecidableEq

/-- The caller's context, observed at loop iteration `i` (iterations
count every scanned line, blank and malformed ones included):
`cancelAt = some k` means cancellation was requested from iteration `k`
on (a context, once done, stays done); `none` means the context is
never cancelled. -/
def ctxDone (cancelAt : Option Nat) (i : Nat) : Bool :=
  match cancelAt with
  | none => false
  | some k => decide (k ≤ i)

/-- The read loop of `Pull`, `Create` and `Push`: per scanned line —
trim; skip blank lines; skip lines that fail to decode (`continue`);
otherwise invoke the callback.  The loop body contains no context check
and no terminal-flag check; it runs to end of stream. -/
def progressLoop {R : Type} (decode : String → Option R) :
    List String → List R
  | [] => []
  | line :: rest =>
    if trimSpace line = "" then progressLoop decode rest
    else
      match decode (trimSpace line) with
      | none => progressLoop decode rest
      | some r => r :: progressLoop decode rest

/-- The read loop of `GenerateStream` and `ChatStream`: per scanned
line — first the `select`/`ctx.Done()` check (returning `ctx.Err()`
with no further callback invocation when the context is done); then
trim; skip blank lines; skip undecodable lines; otherwise invoke the
callback and, if the record's `Done` flag is set, `break` out of the
loop (the `return nil` path). -/
def streamLoop {R : Type} (decode : String → Option R) (isDone : R → Bool)
    (cancelAt : Option Nat) : Nat → List String → List R × StreamResult
  | _, [] => ([], .ok)
  | i, line :: rest =>
    if ctxDone cancelAt i then ([], .cancelled)
    else if trimSpace line = "" then
      streamLoop decode isDone cancelAt (i + 1) rest
    else
      match decode (trimSpace line) with
      | none => streamLoop decode isDone cancelAt (i + 1) rest
      | some r =>
        if isDone r then ([r], .ok)
        else
          let next := streamLoop decode isDone cancelAt (i + 1) rest
          (r :: next.1, next.2)

/-- The streaming section of `Pull`/`Create`/`Push`, given the caller's
context and the body lines.  The loop never consults the context (the
source loop has no `ctx.Done()` check) and always ends in the
`return nil` path once the body is exhausted, so `cancelAt` is unused
on the right-hand side. -/
def progressStream {R : Type} (decode : String → Option R)
    (cancelAt : Option Nat) (lines : List String) :
    List R × StreamResult :=
  (progressLoop decode lines, StreamResult.ok)

/-- The streaming section of `GenerateStream`/`ChatStream`, given the
caller's context and the body lines. -/
def generateChatStream {R : Type} (decode : String → Option R)
    (isDone : R → Bool) (cancelAt : Option Nat) (lines : List String) :
    List R × StreamResult :=
  streamLoop decode isDone cancelAt 0 lines

/-- A body line that the streaming loops deliver: non-blank after
trimming, and decoding its trimmed text yields the record `r`. -/
def validLine {R : Type} (decode : String → Option R) (line : String)
    (r : R) : Prop :=
  trimSpace line ≠ "" ∧ decode (trimSpace line) = some r

/-- A valid body line whose record does not carry the terminal flag. -/
def nonTerminalLine {R : Type} (decode : String → Option R)
    (isDone : R → Bool) (line : String) (r : R) : Prop :=
  validLine decode line r ∧ isDone r = false

theorem progressLoop_append {R : Type} (decode : String → Option R)
    {pre : List String} {ds : List R}
    (hpre : List.Forall₂ (validLine decode) pre ds) (tail : List String) :
    progressLoop decode (pre ++ tail) = ds ++ progressLoop decode tail := by
  induction hpre with
  | nil => rfl
  | cons hpair hrest ih =>
    obtain ⟨hne, hdec⟩ := hpair
    simp [progressLoop, hne, hdec, ih]

theorem progressLoop_forall₂ {R : Type} (decode : String → Option R)
    {lines : List String} {ds : List R}
    (h : List.Forall₂ (validLine decode) lines ds) :
    progressLoop decode lines = ds := by
  have := progressLoop_append decode h []
  simpa [progressLoop] using this

theorem streamLoop_none_forall₂ {R : Type} (decode : String → Option R)
    (isDone : R → Bool) {lines : List String} {ds : List R}
    (h : List.Forall₂ (nonTerminalLine decode isDone) lines ds) :
    ∀ i, streamLoop decode isDone none i lines = (ds, StreamResult.ok) := by
  induction h with
  | nil => intro i; rfl
  | cons hpair hrest ih =>
    intro i
    obtain ⟨⟨hne, hdec⟩, hnd⟩ := hpair
    simp [streamLoop, ctxDone, hne, hdec, hnd, ih (i + 1)]

theorem streamLoop_none_terminal {R : Type} (decode : String → Option R)
    (isDone : R → Bool) {pre : List String} {ds : List R}
    (hpre : List.Forall₂ (nonTerminalLine decode isDone) pre ds)
    (lineT : String) (post : List String) (rT : R)
    (hT : trimSpace lineT ≠ "") (hdT : decode (trimSpace lineT) = some rT)
    (hdoneT : isDone rT = true) :
    ∀ i, streamLoop decode isDone none i (pre ++ lineT :: post)
      = (ds ++ [rT], StreamResult.ok) := by
  induction hpre with
  | nil =>
    intro i
    simp [streamLoop, ctxDone, hT, hdT, hdoneT]
  | cons hpair hrest ih =>
    intro i
    obtain ⟨⟨hne, hdec⟩, hnd⟩ := hpair
    simp [streamLoop, ctxDone, hne, hdec, hnd, ih (i + 1)]

/-- Demonstration record used to instantiate the generic stream
theorems at the repository's `GenerateResponse` type. -/
def demoGen (resp : String) (d : Bool) : GenerateResponse :=
  { Model := "llama2", CreatedAt := 0, Response := resp, Done := d,
    Context := [], TotalDuration := 0, LoadDuration := 0,
    PromptEvalCount := 0, PromptEvalDuration := 0, EvalCount := 0,
    EvalDuration := 0 }

/-- A concrete stand-in for `json.Unmarshal` into `GenerateResponse`,
decoding three fixed line texts (the third carries the terminal
flag). -/
def demoGenDecode : String → Option GenerateResponse :=
  fun s =>
    if s = "lineA" then some (demoGen "Hello" false)
    else if s = "lineB" then some (demoGen " world" false)
    else if s = "lineC" then some (demoGen "!" true)
    else none

/-- **C1** (stream ordering): for a streaming response body of `N`
valid JSON lines, none carrying the terminal flag, the per-record
callback trace of the read loop — of `Pull`/`Create`/`Push`
(`progressLoop`) and of `GenerateStream`/`ChatStream`
(`generateChatStream`, with an uncancelled context) — is exactly the
decoded records of the lines, in body order, and the call returns
success.  The trace is everything the callback ever receives during
the call, so no invocation happens after the call returns. -/
theorem c1_stream_ordering {R : Type} (decode : String → Option R)
    (isDone : R → Bool) (lines : List String) (ds : List R)
    (h : List.Forall₂ (nonTerminalLine decode isDone) lines ds) :
    progressLoop decode lines = ds ∧
    generateChatStream decode isDone none lines = (ds, StreamResult.ok) := by
  constructor
  · exact progressLoop_forall₂ decode (h.imp (fun _ _ hp => hp.1))
  · exact streamLoop_none_forall₂ decode isDone h 0

/-- Witness for C1: a two-line body decoded as two `GenerateResponse`
records is delivered in order by both loop shapes. -/
theorem c1_stream_ordering_witness :
    progressLoop demoGenDecode ["lineA", "lineB"]
      = [demoGen "Hello" false, demoGen " world" false] ∧
    generateChatStream demoGenDecode GenerateResponse.Done none
        ["lineA", "lineB"]
      = ([demoGen "Hello" false, demoGen " world" false],
         StreamResult.ok) :=
  c1_stream_ordering demoGenDecode GenerateResponse.Done
    ["lineA", "lineB"] [demoGen "Hello" false, demoGen " world" false]
    (List.Forall₂.cons ⟨⟨by decide, by decide⟩, by decide⟩
      (List.Forall₂.cons ⟨⟨by decide, by decide⟩, by decide⟩
        List.Forall₂.nil))

/-- **C2** (malformed-line skip): a streaming body of one valid line,
one non-blank malformed line, then one valid line yields exactly the
two decoded records — in both loop shapes — and the call returns
success: the malformed line is skipped by `continue`, not fatal. -/
theorem c2_malformed_line_skip {R : Type} (decode : String → Option R)
    (isDone : R → Bool) (l1 lbad l2 : String) (r1 r2 : R)
    (h1 : trimSpace l1 ≠ "") (hd1 : decode (trimSpace l1) = some r1)
    (hn1 : isDone r1 = false)
    (hb : trimSpace lbad ≠ "") (hdb : decode (trimSpace lbad) = none)
    (h2 : trimSpace l2 ≠ "") (hd2 : decode (trimSpace l2) = some r2)
    (hn2 : isDone r2 = false) :
    progressLoop decode [l1, lbad, l2] = [r1, r2] ∧
    generateChatStream decode isDone none [l1, lbad, l2]
      = ([r1, r2], StreamResult.ok) := by
  constructor
  · simp [progressLoop, h1, hd1, hb, hdb, h2, hd2]
  · simp [generateChatStream, streamLoop, ctxDone, h1, hd1, hn1, hb,
      hdb, h2, hd2, hn2]

/-- Witness for C2: `["lineA", "garbage", "lineB"]` yields exactly the
two decoded records and success. -/
theorem c2_malformed_line_skip_witness :
    progressLoop demoGenDecode ["lineA", "garbage", "lineB"]
      = [demoGen "Hello" false, demoGen " world" false] ∧
    generateChatStream demoGenDecode GenerateResponse.Done none
        ["lineA", "garbage", "lineB"]
      = ([demoGen "Hello" false, demoGen " world" false],
         StreamResult.ok) :=
  c2_malformed_line_skip demoGenDecode GenerateResponse.Done
    "lineA" "garbage" "lineB" (demoGen "Hello" false)
    (demoGen " world" false)
    (by decide) (by decide) (by decide) (by decide) (by decide)
    (by decide) (by decide) (by decide)

/-- **C3** (terminal stop): once `GenerateStream`/`ChatStream` deliver
a record whose `Done` flag is set, the loop breaks — no further
callback invocation happens even though `post` lines remain — and the
call returns success; the `Pull`/`Create`/`Push` loop has no terminal
flag and reads every line to end of stream. -/
theorem c3_terminal_stop {R : Type} (decode : String → Option R)
    (isDone : R → Bool) (pre post : List String) (ds dsPost : List R)
    (lineT : String) (rT : R)
    (hpre : List.Forall₂ (nonTerminalLine decode isDone) pre ds)
    (hT : trimSpace lineT ≠ "") (hdT : decode (trimSpace lineT) = some rT)
    (hdoneT : isDone rT = true)
    (hpost : List.Forall₂ (validLine decode) post dsPost) :
    generateChatStream decode isDone none (pre ++ lineT :: post)
      = (ds ++ [rT], StreamResult.ok) ∧
    progressLoop decode (pre ++ lineT :: post) = ds ++ rT :: dsPost := by
  constructor
  · exact streamLoop_none_terminal decode isDone hpre lineT post rT hT
      hdT hdoneT 0
  · rw [progressLoop_append decode (hpre.imp (fun _ _ hp => hp.1))]
    simp [progressLoop, hT, hdT, progressLoop_forall₂ decode hpost]

/-- Witness for C3: with body
`["lineA", "lineC", "lineB"]` — where `lineC` decodes with `Done` set —
the generate/chat loop stops after two records while the progress loop
reads all three. -/
theorem c3_terminal_stop_witness :
    generateChatStream demoGenDecode GenerateResponse.Done none
        ["lineA", "lineC", "lineB"]
      = ([demoGen "Hello" false, demoGen "!" true], StreamResult.ok) ∧
    progressLoop demoGenDecode ["lineA", "lineC", "lineB"]
      = [demoGen "Hello" false, demoGen "!" true,
         demoGen " world" false] :=
  c3_terminal_stop demoGenDecode GenerateResponse.Done
    ["lineA"] ["lineB"] [demoGen "Hello" false] [demoGen " world" false]
    "lineC" (demoGen "!" true)
    (List.Forall₂.cons ⟨⟨by decide, by decide⟩, by decide⟩
      List.Forall₂.nil)
    (by decide) (by decide) (by decide)
    (List.Forall₂.cons ⟨by decide, by decide⟩ List.Forall₂.nil)

/-- Demonstration progress record for the `Pull` loop. -/
def demoPull (st : String) : PullProgress :=
  { Status := st, Digest := "", Total := 0, Completed := 0 }

/-- A concrete stand-in for `json.Unmarshal` into `PullProgress`. -/
def demoPullDecode : String → Option PullProgress :=
  fun s => if s = "lineA" then some (demoPull "downloading") else none

/-- **C4 counterexample**: the claim says every streaming operation —
`Pull` included — checks caller cancellation before each line and,
once cancellation is requested, aborts with a cancellation error and
invokes no further callback.  The `Pull`/`Create`/`Push` read loop
contains no `ctx.Done()` check: with the context cancelled before the
first line (`cancelAt = some 0`) and a body of one valid line, the
callback is still invoked once and the call still returns success, not
a cancellation error. -/
theorem c4_cancellation_counterexample :
    progressStream demoPullDecode (some 0) ["lineA"]
      = ([demoPull "downloading"], StreamResult.ok) ∧
    (progressStream demoPullDecode (some 0) ["lineA"]).1 ≠ [] ∧
    (progressStream demoPullDecode (some 0) ["lineA"]).2
      ≠ StreamResult.cancelled := by
  refine ⟨by decide, by decide, by decide⟩

/-- **C4 amended**: only `GenerateStream` and `ChatStream` check
caller-requested cancellation before each line — once the context is
done the loop returns the cancellation-typed `ctx.Err()` immediately,
with no callback invocation — while the `Pull`/`Create`/`Push` read
loop performs no cancellation check at all: its callback trace and
success result are identical under any two contexts. -/
theorem c4_cancellation_amended {R : Type} (decode : String → Option R)
    (isDone : R → Bool) (k i : Nat) (hk : k ≤ i) (line : String)
    (rest lines : List String) (cA cB : Option Nat) :
    streamLoop decode isDone (some k) i (line :: rest)
      = ([], StreamResult.cancelled) ∧
    progressStream decode cA lines = progressStream decode cB lines := by
  constructor
  · simp [streamLoop, ctxDone, hk]
  · rfl

/-- Witness for the amended C4: cancellation before the first line
stops the generate/chat loop with no callback, while the `Pull` loop's
outcome with a cancelled context equals its outcome with no
cancellation at all. -/
theorem c4_cancellation_amended_witness :
    streamLoop demoGenDecode GenerateResponse.Done (some 0) 0 ["lineA"]
      = ([], StreamResult.cancelled) ∧
    progressStream demoGenDecode (some 0) ["lineA"]
      = progressStream demoGenDecode none ["lineA"] :=
  c4_cancellation_amended demoGenDecode GenerateResponse.Done 0 0
    (by decide) "lineA" [] ["lineA"] (some 0) none

/-- **C5 counterexample**: the claim says `Generate` always transmits
`streaming=false` on the wire.  With the caller's request having
`Stream = true`, `Generate` clones and forces `Stream = false`, but the
`stream` field carries the `omitempty` tag, so the marshaled wire body
contains no `stream` key at all — `streaming=false` is never
transmitted. -/
theorem c5_stream_flag_counterexample :
    generateCall
        (some { Model := "m", Prompt := "p", Stream := true,
                Options := [] })
      = .ok ({ Model := "m", Prompt := "p", Stream := true,
               Options := [] },
             [("model", Json.str "m"), ("prompt", Json.str "p")]) ∧
    List.lookup "stream"
        [("model", Json.str "m"), ("prompt", Json.str "p")] = none := by
  exact ⟨rfl, rfl⟩

theorem lookup_stream_marshalGenerate (r : GenerateRequest) :
    List.lookup "stream" (marshalGenerateRequest r)
      = if r.Stream then some (Json.bool true) else none := by
  by_cases hs : r.Stream <;> by_cases ho : r.Options.isEmpty <;>
    simp [marshalGenerateRequest, hs, ho, List.lookup]

theorem lookup_stream_marshalChat (r : ChatRequest) :
    List.lookup "stream" (marshalChatRequest r)
      = if r.Stream then some (Json.bool true) else none := by
  by_cases hs : r.Stream <;> by_cases ho : r.Options.isEmpty <;>
    simp [marshalChatRequest, hs, ho, List.lookup]

/-- **C5 amended**: the streaming variants always transmit
`"stream": true` on the wire regardless of the caller's flag; the
non-streaming variants force the cloned request's `Stream` field to
`false`, but because the field is tagged `omitempty` the wire body then
carries no `stream` key at all (so `streaming=false` is expressed by
omission, never transmitted explicitly). -/
theorem c5_stream_flag_amended (r : GenerateRequest) (rc : ChatRequest)
    (hm : r.Model ≠ "") (hcm : rc.Model ≠ "")
    (hmsg : rc.Messages.isEmpty = false) :
    generateCall (some r)
      = .ok (r, marshalGenerateRequest { r with Stream := false }) ∧
    List.lookup "stream" (marshalGenerateRequest { r with Stream := false })
      = none ∧
    generateStreamCall (some r) (some ())
      = .ok (r, marshalGenerateRequest { r with Stream := true }) ∧
    List.lookup "stream" (marshalGenerateRequest { r with Stream := true })
      = some (Json.bool true) ∧
    chatCall (some rc)
      = .ok (rc, marshalChatRequest { rc with Stream := false }) ∧
    List.lookup "stream" (marshalChatRequest { rc with Stream := false })
      = none ∧
    chatStreamCall (some rc) (some ())
      = .ok (rc, marshalChatRequest { rc with Stream := true }) ∧
    List.lookup "stream" (marshalChatRequest { rc with Stream := true })
      = some (Json.bool true) := by
  refine ⟨?_, ?_, ?_, ?_, ?_, ?_, ?_, ?_⟩
  · simp [generateCall, hm]
  · simp [lookup_stream_marshalGenerate]
  · simp [generateStreamCall, hm]
  · simp [lookup_stream_marshalGenerate]
  · simp [chatCall, hcm, hmsg]
  · simp [lookup_stream_marshalChat]
  · simp [chatStreamCall, hcm, hmsg]
  · simp [lookup_stream_marshalChat]

/-- Witness for the amended C5 at concrete requests (the generate
request starts with `Stream = true`, the chat request with
`Stream = false`; each variant transmits its own framing regardless). -/
theorem c5_stream_flag_amended_witness :
    generateCall (some ⟨"llama2", "hi", true, []⟩)
      = .ok (⟨"llama2", "hi", true, []⟩,
             marshalGenerateRequest ⟨"llama2", "hi", false, []⟩) ∧
    List.lookup "stream" (marshalGenerateRequest ⟨"llama2", "hi", false, []⟩)
      = none ∧
    generateStreamCall (some ⟨"llama2", "hi", true, []⟩) (some ())
      = .ok (⟨"llama2", "hi", true, []⟩,
             marshalGenerateRequest ⟨"llama2", "hi", true, []⟩) ∧
    List.lookup "stream" (marshalGenerateRequest ⟨"llama2", "hi", true, []⟩)
      = some (Json.bool true) ∧
    chatCall (some ⟨"llama2", [⟨"user", "hi"⟩], false, []⟩)
      = .ok (⟨"llama2", [⟨"user", "hi"⟩], false, []⟩,
             marshalChatRequest ⟨"llama2", [⟨"user", "hi"⟩], false, []⟩) ∧
    List.lookup "stream"
        (marshalChatRequest ⟨"llama2", [⟨"user", "hi"⟩], false, []⟩)
      = none ∧
    chatStreamCall (some ⟨"llama2", [⟨"user", "hi"⟩], false, []⟩) (some ())
      = .ok (⟨"llama2", [⟨"user", "hi"⟩], false, []⟩,
             marshalChatRequest ⟨"llama2", [⟨"user", "hi"⟩], true, []⟩) ∧
    List.lookup "stream"
        (marshalChatRequest ⟨"llama2", [⟨"user", "hi"⟩], true, []⟩)
      = some (Json.bool true) :=
  c5_stream_flag_amended ⟨"llama2", "hi", true, []⟩
    ⟨"llama2", [⟨"user", "hi"⟩], false, []⟩
    (by decide) (by decide) (by decide)

/-- **C6** (frame): `Generate`, `GenerateStream`, `Chat` and
`ChatStream` force the streaming flag on a clone (`reqCopy := *req`) —
the first component of each `.ok` payload is the value the caller's
request pointer still refers to after the call, and it equals the
caller's original request, `Stream` field included; only the clone used
for the wire body differs, and only in its `Stream` field. -/
theorem c6_caller_request_unchanged (r : GenerateRequest)
    (rc : ChatRequest) (hm : r.Model ≠ "") (hcm : rc.Model ≠ "")
    (hmsg : rc.Messages.isEmpty = false) :
    generateCall (some r)
      = .ok (r, marshalGenerateRequest { r with Stream := false }) ∧
    generateStreamCall (some r) (some ())
      = .ok (r, marshalGenerateRequest { r with Stream := true }) ∧
    chatCall (some rc)
      = .ok (rc, marshalChatRequest { rc with Stream := false }) ∧
    chatStreamCall (some rc) (some ())
      = .ok (rc, marshalChatRequest { rc with Stream := true }) := by
  refine ⟨?_, ?_, ?_, ?_⟩
  · simp [generateCall, hm]
  · simp [generateStreamCall, hm]
  · simp [chatCall, hcm, hmsg]
  · simp [chatStreamCall, hcm, hmsg]

/-- Witness for C6: a caller request with `Stream = true` comes back
unchanged from `Generate` even though the wire clone was forced to
`Stream = false`, and symmetrically for the other three variants. -/
theorem c6_caller_request_unchanged_witness :
    generateCall (some ⟨"llama2", "hello", true, []⟩)
      = .ok (⟨"llama2", "hello", true, []⟩,
             marshalGenerateRequest ⟨"llama2", "hello", false, []⟩) ∧
    generateStreamCall (some ⟨"llama2", "hello", true, []⟩) (some ())
      = .ok (⟨"llama2", "hello", true, []⟩,
             marshalGenerateRequest ⟨"llama2", "hello", true, []⟩) ∧
    chatCall (some ⟨"llama2", [⟨"user", "hey"⟩], true, []⟩)
      = .ok (⟨"llama2", [⟨"user", "hey"⟩], true, []⟩,
             marshalChatRequest ⟨"llama2", [⟨"user", "hey"⟩], false, []⟩) ∧
    chatStreamCall (some ⟨"llama2", [⟨"user", "hey"⟩], true, []⟩) (some ())
      = .ok (⟨"llama2", [⟨"user", "hey"⟩], true, []⟩,
             marshalChatRequest ⟨"llama2", [⟨"user", "hey"⟩], true, []⟩) :=
  c6_caller_request_unchanged ⟨"llama2", "hello", true, []⟩
    ⟨"llama2", [⟨"user", "hey"⟩], true, []⟩
    (by decide) (by decide) (by decide)

theorem asciiLower_error : asciiLower "error" = "error" := by decide

/-- **C7** (error mapping): a non-2xx status makes the executor return
the structured `OllamaError` carrying the response's status code; when
the body is the JSON envelope `\x7b"error": "<message>"\x7d` the
error's message is the envelope's `error` field, and when the body is
not valid JSON the message is the raw body text. -/
theorem c7_error_mapping (status : Int) (m : String) (bodyRaw bodyEnv : Body)
    (hnon2xx : status < 200 ∨ 300 ≤ status)
    (hinvalid : bodyRaw.json = none)
    (henv : bodyEnv.json = some (Json.obj [("error", Json.str m)])) :
    checkStatus status bodyRaw
      = some (GoError.ollama status bodyRaw.raw) ∧
    checkStatus status bodyEnv = some (GoError.ollama status m) := by
  constructor
  · unfold checkStatus
    rw [if_pos hnon2xx]
    simp [parseErrorResponse, hinvalid]
  · unfold checkStatus
    rw [if_pos hnon2xx]
    simp [parseErrorResponse, henv, unmarshalErrorResponse,
      applyErrorFields, asciiLower_error, setStringField]

/-- Witness for C7: status 404 with body
`\x7b"error":"model not found"\x7d` yields status 404 and message
"model not found"; status 404 with the non-JSON body
"internal failure" yields that raw text as the message. -/
theorem c7_error_mapping_witness :
    checkStatus 404 ⟨"internal failure", none⟩
      = some (GoError.ollama 404 "internal failure") ∧
    checkStatus 404
        ⟨"\x7b\x22error\x22:\x22model not found\x22\x7d",
         some (Json.obj [("error", Json.str "model not found")])⟩
      = some (GoError.ollama 404 "model not found") :=
  c7_error_mapping 404 "model not found" ⟨"internal failure", none⟩
    ⟨"\x7b\x22error\x22:\x22model not found\x22\x7d",
     some (Json.obj [("error", Json.str "model not found")])⟩
    (Or.inr (by norm_num)) rfl rfl

/-- **C8** (validation fail-fast): every public operation rejects an
empty required identifier (model name, source, destination, prompt,
modelfile), an empty message list, a `nil` callback or a `nil` request
with a validation error; each `…Call` definition returns `.error`
before the wire request value is ever constructed, so no network
request is issued. -/
theorem c8_validation_fail_fast :
    showCall "" = .error (.leaf "model name cannot be empty") ∧
    (∀ d, copyCall "" d
      = .error (.leaf "source model name cannot be empty")) ∧
    copyCall "llama2" ""
      = .error (.leaf "destination model name cannot be empty") ∧
    deleteCall "" = .error (.leaf "model name cannot be empty") ∧
    (∀ fn, pullCall "" fn
      = .error (.leaf "model name cannot be empty")) ∧
    pullCall "llama2" none
      = .error (.leaf "progress callback function cannot be nil") ∧
    (∀ mc fn, createCall "" mc fn
      = .error (.leaf "model name cannot be empty")) ∧
    (∀ fn, createCall "llama2" "" fn
      = .error (.leaf "modelfile content cannot be empty")) ∧
    createCall "llama2" "FROM llama2" none
      = .error (.leaf "progress callback function cannot be nil") ∧
    (∀ fn, pushCall "" fn
      = .error (.leaf "model name cannot be empty")) ∧
    pushCall "llama2" none
      = .error (.leaf "progress callback function cannot be nil") ∧
    generateCall none = .error (.leaf "generate request cannot be nil") ∧
    (∀ p st o, generateCall (some ⟨"", p, st, o⟩)
      = .error (.leaf "model name cannot be empty")) ∧
    (∀ fn, generateStreamCall none fn
      = .error (.leaf "generate request cannot be nil")) ∧
    (∀ p st o fn, generateStreamCall (some ⟨"", p, st, o⟩) fn
      = .error (.leaf "model name cannot be empty")) ∧
    generateStreamCall (some ⟨"llama2", "hi", false, []⟩) none
      = .error (.leaf "callback function cannot be nil") ∧
    chatCall none = .error (.leaf "chat request cannot be nil") ∧
    (∀ ms st o, chatCall (some ⟨"", ms, st, o⟩)
      = .error (.leaf "model name cannot be empty")) ∧
    (∀ st o, chatCall (some ⟨"llama2", [], st, o⟩)
      = .error (.leaf "at least one message is required")) ∧
    (∀ fn, chatStreamCall none fn
      = .error (.leaf "chat request cannot be nil")) ∧
    (∀ ms st o fn, chatStreamCall (some ⟨"", ms, st, o⟩) fn
      = .error (.leaf "model name cannot be empty")) ∧
    (∀ st o fn, chatStreamCall (some ⟨"llama2", [], st, o⟩) fn
      = .error (.leaf "at least one message is required")) ∧
    chatStreamCall (some ⟨"llama2", [⟨"user", "hi"⟩], false, []⟩) none
      = .error (.leaf "callback function cannot be nil") ∧
    embeddingsCall none
      = .error (.leaf "embedding request cannot be nil") ∧
    (∀ p, embeddingsCall (some ⟨"", p⟩)
      = .error (.leaf "model name cannot be empty")) ∧
    embeddingsCall (some ⟨"llama2", ""⟩)
      = .error (.leaf "prompt cannot be empty") := by
  repeat' apply And.intro
  all_goals intros
  all_goals rfl

/-- **C9 counterexample**: the claim says every error a public
operation returns — validation errors included — is wrapped with the
name of the failing operation.  `Pull` with an empty model name
returns the bare validation error "model name cannot be empty": it is
no wrap of anything, and its rendered message does not mention the
operation at all. -/
theorem c9_operation_wrap_counterexample :
    pullCall "" (some ())
      = .error (.leaf "model name cannot be empty") ∧
    (GoError.leaf "model name cannot be empty").isWrapped = false ∧
    (GoError.leaf "model name cannot be empty").unwrap = none ∧
    ¬ ("pull".toList
      <:+: (GoError.leaf "model name cannot be empty").message.toList) ∧
    ¬ ("Pull".toList
      <:+: (GoError.leaf "model name cannot be empty").message.toList) := by
  refine ⟨rfl, rfl, rfl, by decide, by decide⟩

theorem parseErrorResponse_shape (status : Int) (b : Body) :
    (parseErrorResponse status b).isOllama = true ∧
    (parseErrorResponse status b).isWrapped = false := by
  unfold parseErrorResponse
  cases b.json with
  | none => exact ⟨rfl, rfl⟩
  | some v =>
    cases hu : unmarshalErrorResponse v with
    | none => simp [hu, GoError.isOllama, GoError.isWrapped]
    | some er => simp [hu, GoError.isOllama, GoError.isWrapped]

/-- **C9 amended**: errors arising after validation in the unary
operations are wrapped with the operation's name via `%w`, so the
cause remains inspectable through the wrap (`unwrap` recovers it);
but validation errors are returned bare, with no operation-name wrap
(e.g. `Pull("")` returns exactly "model name cannot be empty"), and
the streaming operations return the non-2xx structured error itself,
unwrapped. -/
theorem c9_operation_wrap_amended (e : GoError) (s d m : String)
    (status : Int) (b : Body) :
    listResult (.error e)
      = .error (.wrap "failed to list models" e) ∧
    showResult m (.error e)
      = .error (.wrap ("failed to show model " ++ goQuote m) e) ∧
    copyResult s d (.error e)
      = .error (.wrap ("failed to copy model from " ++ goQuote s
          ++ " to " ++ goQuote d) e) ∧
    deleteResult m (.error e)
      = .error (.wrap ("failed to delete model " ++ goQuote m) e) ∧
    generateResult (.error e)
      = .error (.wrap "failed to generate text" e) ∧
    chatResult (.error e) = .error (.wrap "failed to chat" e) ∧
    embeddingsResult (.error e)
      = .error (.wrap "failed to generate embeddings" e) ∧
    psResult (.error e)
      = .error (.wrap "failed to get process status" e) ∧
    (GoError.wrap "failed to list models" e).unwrap = some e ∧
    pullCall "" (some ())
      = .error (.leaf "model name cannot be empty") ∧
    (parseErrorResponse status b).isOllama = true ∧
    (parseErrorResponse status b).isWrapped = false := by
  refine ⟨rfl, rfl, rfl, rfl, rfl, rfl, rfl, rfl, rfl, rfl, ?_, ?_⟩
  · exact (parseErrorResponse_shape status b).1
  · exact (parseErrorResponse_shape status b).2

/-- **C10 counterexample**: `[1]` is valid JSON with no string
`error` field, yet the structured error's message is the raw body
text `"[1]"`, not the empty string — `json.Unmarshal` of a JSON array
into the envelope struct is a type error, which takes the raw-body
branch of `parseErrorResponse`. -/
theorem c10_no_error_field_counterexample :
    parseErrorResponse 404 ⟨"[1]", some (Json.arr [Json.num 1])⟩
      = GoError.ollama 404 "[1]" ∧
    "[1]" ≠ "" := by
  exact ⟨rfl, by decide⟩

/-- **C10 amended**: a non-2xx body that is a valid JSON *object*
without an `error`-matching key — or with a null `error`, or the JSON
value `null` itself — yields the empty string as the message (the
status code is carried either way); a valid-JSON body the envelope
cannot be unmarshaled from — a non-object, or an object whose `error`
value is neither a string nor null — yields the raw body text as the
message. -/
theorem c10_no_error_field_amended (status : Int) (raw k : String)
    (v : Json) (n : Int) (hk : asciiLower k ≠ "error") :
    parseErrorResponse status ⟨raw, some (Json.obj [])⟩
      = .ollama status "" ∧
    parseErrorResponse status ⟨raw, some (Json.obj [(k, v)])⟩
      = .ollama status "" ∧
    parseErrorResponse status ⟨raw, some Json.null⟩
      = .ollama status "" ∧
    parseErrorResponse status ⟨raw, some (Json.obj [("error", Json.null)])⟩
      = .ollama status "" ∧
    parseErrorResponse status
        ⟨raw, some (Json.obj [("error", Json.num n)])⟩
      = .ollama status raw ∧
    parseErrorResponse status ⟨raw, some (Json.arr [])⟩
      = .ollama status raw ∧
    parseErrorResponse status ⟨raw, some (Json.num n)⟩
      = .ollama status raw ∧
    parseErrorResponse status ⟨raw, some (Json.str raw)⟩
      = .ollama status raw := by
  refine ⟨rfl, ?_, rfl, ?_, ?_, rfl, rfl, rfl⟩
  · simp [parseErrorResponse, unmarshalErrorResponse, applyErrorFields,
      hk]
  · simp [parseErrorResponse, unmarshalErrorResponse, applyErrorFields,
      asciiLower_error, setStringField]
  · simp [parseErrorResponse, unmarshalErrorResponse, applyErrorFields,
      asciiLower_error, setStringField]

/-- Witness for the amended C10: status 500 with body
`\x7b"message":"x"\x7d` gives message `""` (and the other concrete
shapes behave as stated). -/
theorem c10_no_error_field_amended_witness :
    parseErrorResponse 500 ⟨"\x7b\x7d", some (Json.obj [])⟩
      = .ollama 500 "" ∧
    parseErrorResponse 500
        ⟨"\x7b\x22message\x22:\x22x\x22\x7d",
         some (Json.obj [("message", Json.str "x")])⟩
      = .ollama 500 "" ∧
    parseErrorResponse 500 ⟨"null", some Json.null⟩
      = .ollama 500 "" ∧
    parseErrorResponse 500
        ⟨"\x7b\x22error\x22:null\x7d",
         some (Json.obj [("error", Json.null)])⟩
      = .ollama 500 "" ∧
    parseErrorResponse 500
        ⟨"\x7b\x22error\x22:7\x7d",
         some (Json.obj [("error", Json.num 7)])⟩
      = .ollama 500 "\x7b\x22error\x22:7\x7d" ∧
    parseErrorResponse 500 ⟨"[]", some (Json.arr [])⟩
      = .ollama 500 "[]" ∧
    parseErrorResponse 500 ⟨"7", some (Json.num 7)⟩
      = .ollama 500 "7" ∧
    parseErrorResponse 500 ⟨"\x22oops\x22", some (Json.str "\x22oops\x22")⟩
      = .ollama 500 "\x22oops\x22" := by
  exact
    ⟨(c10_no_error_field_amended 500 "\x7b\x7d" "x" Json.null 0
        (by decide)).1,
     (c10_no_error_field_amended 500 "\x7b\x22message\x22:\x22x\x22\x7d"
        "message" (Json.str "x") 0 (by decide)).2.1,
     (c10_no_error_field_amended 500 "null" "x" Json.null 0
        (by decide)).2.2.1,
     (c10_no_error_field_amended 500 "\x7b\x22error\x22:null\x7d" "x"
        Json.null 0 (by decide)).2.2.2.1,
     (c10_no_error_field_amended 500 "\x7b\x22error\x22:7\x7d" "x"
        Json.null 7 (by decide)).2.2.2.2.1,
     (c10_no_error_field_amended 500 "[]" "x" Json.null 0
        (by decide)).2.2.2.2.2.1,
     (c10_no_error_field_amended 500 "7" "x" Json.null 7
        (by decide)).2.2.2.2.2.2.1,
     (c10_no_error_field_amended 500 "\x22oops\x22" "x" Json.null 0
        (by decide)).2.2.2.2.2.2.2⟩

end Gollama
